import Mathlib

/-
Verification of the deposit-contract resolution and validation pipeline of
cmd/beacondeposit.go ("ethereal beacon deposit").  The Go source is shallowly
embedded below: machine integers become Nat (uint64) and Int (int64, big.Int)
with wraparound made explicit where the source can overflow; fallible code
returns Except; process-terminating cli.Assert / cli.ErrCheck failures become
error values carrying the reason the assert names.
-/

set_option autoImplicit false

deriving instance DecidableEq for Except

namespace Ethereal

/-- The override flags of the command (the package-level beaconDeposit* Bool
variables bound to --allow-old-data, --allow-new-data, --allow-excessive-deposit,
--allow-unknown-contract, --allow-duplicate-deposit and --force-zero-value). -/
structure Overrides where
  allowOldData : Bool
  allowNewData : Bool
  allowExcessiveDeposit : Bool
  allowUnknownContract : Bool
  allowDuplicateDeposit : Bool
  forceZeroValue : Bool
deriving DecidableEq

/-- All flags false: the command-line defaults (cobra BoolVar default false). -/
def defaultOverrides : Overrides :=
  { allowOldData := false, allowNewData := false, allowExcessiveDeposit := false,
    allowUnknownContract := false, allowDuplicateDeposit := false, forceZeroValue := false }

/-- beaconDepositContract: a known deposit-contract deployment.  chainID is a
big.Int in the source, embedded as Int; address and forkVersion are byte slices,
embedded as lists of byte values; minVersion and maxVersion are uint64. -/
structure BeaconContract where
  network : String
  chainID : Int
  address : List Nat
  forkVersion : List Nat
  minVersion : Nat
  maxVersion : Nat
  subgraph : String
deriving DecidableEq

/-- Mainnet entry: address 0x00000000219ab540356cBB839Cbe05303d7705Fa. -/
def mainnetContract : BeaconContract :=
  { network := "Mainnet", chainID := 1,
    address := [0x00, 0x00, 0x00, 0x00, 0x21, 0x9a, 0xb5, 0x40, 0x35, 0x6c,
                0xbb, 0x83, 0x9c, 0xbe, 0x05, 0x30, 0x3d, 0x77, 0x05, 0xfa],
    forkVersion := [0x00, 0x00, 0x00, 0x00], minVersion := 3, maxVersion := 4,
    subgraph := "attestantio/eth2deposits" }

/-- Ropsten entry: address 0x6f22fFbC56eFF051aECF839396DD1eD9aD6BBA9D. -/
def ropstenContract : BeaconContract :=
  { network := "Ropsten", chainID := 3,
    address := [0x6f, 0x22, 0xff, 0xbc, 0x56, 0xef, 0xf0, 0x51, 0xae, 0xcf,
                0x83, 0x93, 0x96, 0xdd, 0x1e, 0xd9, 0xad, 0x6b, 0xba, 0x9d],
    forkVersion := [0x80, 0x00, 0x00, 0x69], minVersion := 3, maxVersion := 4,
    subgraph := "" }

/-- Prater entry: address 0xff50ed3d0ec03aC01D4C79aAd74928BFF48a7b2b. -/
def praterContract : BeaconContract :=
  { network := "Prater", chainID := 5,
    address := [0xff, 0x50, 0xed, 0x3d, 0x0e, 0xc0, 0x3a, 0xc0, 0x1d, 0x4c,
                0x79, 0xaa, 0xd7, 0x49, 0x28, 0xbf, 0xf4, 0x8a, 0x7b, 0x2b],
    forkVersion := [0x00, 0x00, 0x10, 0x20], minVersion := 3, maxVersion := 4,
    subgraph := "attestantio/eth2deposits-prater" }

/-- Kiln entry: address 0x4242424242424242424242424242424242424242. -/
def kilnContract : BeaconContract :=
  { network := "Kiln", chainID := 1337802,
    address := List.replicate 20 0x42,
    forkVersion := [0x70, 0x00, 0x00, 0x69], minVersion := 3, maxVersion := 4,
    subgraph := "" }

/-- Sepolia entry: address 0x7f02C3E3c98b133055B8B348B2Ac625669Ed295D. -/
def sepoliaContract : BeaconContract :=
  { network := "Sepolia", chainID := 11155111,
    address := [0x7f, 0x02, 0xc3, 0xe3, 0xc9, 0x8b, 0x13, 0x30, 0x55, 0xb8,
                0xb3, 0x48, 0xb2, 0xac, 0x62, 0x56, 0x69, 0xed, 0x29, 0x5d],
    forkVersion := [0x90, 0x00, 0x00, 0x69], minVersion := 3, maxVersion := 4,
    subgraph := "" }

/-- beaconDepositKnownContracts: the static registry, in source order. -/
def beaconDepositKnownContracts : List BeaconContract :=
  [mainnetContract, ropstenContract, praterContract, kilnContract, sepoliaContract]

/-- util.DepositInfo as consumed by this command: byte-slice fields embedded as
lists of byte values, Amount and Version are uint64 (Amount in Gwei). -/
structure DepositInfo where
  account : String
  publicKey : List Nat
  withdrawalCredentials : List Nat
  signature : List Nat
  depositDataRoot : List Nat
  amount : Nat
  version : Nat
  forkVersion : List Nat
deriving DecidableEq

/-- The reasons the per-record cli.Assert chain of beaconDepositCmd.Run
(lines 144-161) can abort. -/
inductive ValidationErr where
  | missingPublicKey
  | missingDataRoot
  | missingSignature
  | missingWithdrawalCredentials
  | forkVersionMismatch
  | amountTooSmall
  | amountTooLarge
  | schemaTooOld
  | schemaTooNew
deriving DecidableEq

/-- The per-record check sequence of beaconDepositCmd.Run lines 144-161, in
source order.  Each cli.Assert(cond, ...) becomes: if the negation of cond
holds, abort with the corresponding error, else continue. -/
def validateRecord (contract : BeaconContract) (ctx : Overrides) (d : DepositInfo) :
    Except ValidationErr Unit :=
  if d.publicKey = [] then .error .missingPublicKey
  else if d.depositDataRoot = [] then .error .missingDataRoot
  else if d.signature = [] then .error .missingSignature
  else if d.withdrawalCredentials = [] then .error .missingWithdrawalCredentials
  else if contract.forkVersion ≠ [] ∧ d.forkVersion ≠ [] ∧ d.forkVersion ≠ contract.forkVersion then
    .error .forkVersionMismatch
  else if d.amount < 1000000000 then .error .amountTooSmall
  else if ¬(d.amount ≤ 32000000000 ∨ ctx.allowExcessiveDeposit = true) then .error .amountTooLarge
  else if ¬(ctx.allowOldData = true ∨ contract.minVersion ≤ d.version) then .error .schemaTooOld
  else if ¬(ctx.allowNewData = true ∨ d.version ≤ contract.maxVersion) then .error .schemaTooNew
  else .ok ()

/-- The validation loop over the whole batch (the for-loop at line 143): records
are checked in order, the first failure aborts the run with that record's batch
index (the loop variable i). -/
def validateAll (contract : BeaconContract) (ctx : Overrides) :
    List DepositInfo → Nat → Except (Nat × ValidationErr) Unit
  | [], _ => .ok ()
  | d :: rest, i =>
    match validateRecord contract ctx d with
    | .error e => .error (i, e)
    | .ok _ => validateAll contract ctx rest (i + 1)

/-- Value of a hex digit, accepting 0-9, a-f and A-F exactly as encoding/hex does. -/
def hexVal (c : Char) : Option Nat :=
  if '0' ≤ c ∧ c ≤ '9' then some (c.toNat - 48)
  else if 'a' ≤ c ∧ c ≤ 'f' then some (c.toNat - 87)
  else if 'A' ≤ c ∧ c ≤ 'F' then some (c.toNat - 55)
  else none

/-- hex.DecodeString on a character list: bytes are decoded pairwise; an odd
length or an invalid character is an error (none). -/
def decodeHexList : List Char → Option (List Nat)
  | [] => some []
  | [_] => none
  | a :: b :: rest =>
    match hexVal a, hexVal b, decodeHexList rest with
    | some hi, some lo, some tail => some ((hi * 16 + lo) :: tail)
    | _, _, _ => none

/-- hex.DecodeString for the contract address string. -/
def decodeHexString (s : String) : Option (List Nat) :=
  decodeHexList s.data

/-- strings.HasPrefix: byte-wise prefix test (character-wise is equivalent here
since every prefix the source tests against is ASCII). -/
def goHasPrefix (s pre : String) : Bool :=
  pre.data.isPrefixOf s.data

/-- strings.TrimPrefix(s, "0x"). -/
def strip0x (s : String) : String :=
  if goHasPrefix s "0x" then ⟨s.data.drop 2⟩ else s

/-- A single case-folding step: ASCII upper case maps to lower case; the two
non-ASCII runes whose Unicode simple-fold orbit contains an ASCII letter
(Kelvin sign and long s) map to that letter.  On comparisons where one side is
ASCII - every registry network name is - this makes mapped equality coincide
with strings.EqualFold. -/
def foldChar (c : Char) : Char :=
  if 'A' ≤ c ∧ c ≤ 'Z' then Char.ofNat (c.toNat + 32)
  else if c = '\u212A' then 'k'
  else if c = '\u017F' then 's'
  else c

/-- strings.EqualFold restricted as described at foldChar. -/
def goEqualFold (s t : String) : Bool :=
  s.data.map foldChar = t.data.map foldChar

/-- The linear scan of fetchBeaconDepositContract over the registry when an
address was supplied: first entry with an equal address and chain identity. -/
def findAddr (registry : List BeaconContract) (address : List Nat) (chainID : Int) :
    Option BeaconContract :=
  match registry with
  | [] => none
  | c :: rest =>
    if c.address = address ∧ c.chainID = chainID then some c
    else findAddr rest address chainID

/-- The linear scan of fetchBeaconDepositContract over the registry when only a
network name was supplied: first entry whose name matches case-insensitively. -/
def findNetwork (registry : List BeaconContract) (network : String) : Option BeaconContract :=
  match registry with
  | [] => none
  | c :: rest =>
    if goEqualFold network c.network then some c
    else findNetwork rest network

/-- The synthetic descriptor returned for an unrecognised address under
--allow-unknown-contract (lines 425-431): Go zero values for the fields the
literal omits (empty forkVersion, empty subgraph). -/
def syntheticContract (chainID : Int) (address : List Nat) : BeaconContract :=
  { network := "user-supplied network", chainID := chainID, address := address,
    forkVersion := [], minVersion := 0, maxVersion := 999, subgraph := "" }

/-- The failure modes of fetchBeaconDepositContract. -/
inductive FetchErr where
  | invalidAddress
  | unknownContract
  | unknownNetwork
  | notFound
deriving DecidableEq

/-- fetchBeaconDepositContract (lines 405-448).  The current chain identity
(c.ChainID()) is passed explicitly.  An empty contractAddress leaves the
address slice nil; a nonempty one is 0x-stripped and hex-decoded, a decode
failure being fatal.  A decoded-but-empty address (the string "0x") falls
through to the network branch exactly as in the source. -/
def fetchBeaconDepositContract (registry : List BeaconContract) (chainID : Int)
    (allowUnknown : Bool) (contractAddress network : String) :
    Except FetchErr BeaconContract :=
  match (if contractAddress = "" then some [] else decodeHexString (strip0x contractAddress)) with
  | none => .error .invalidAddress
  | some address =>
    if address ≠ [] then
      match findAddr registry address chainID with
      | some contract => .ok contract
      | none =>
        if allowUnknown then .ok (syntheticContract chainID address)
        else .error .unknownContract
    else if network ≠ "" then
      match findNetwork registry network with
      | some contract => .ok contract
      | none => .error .unknownNetwork
    else .error .notFound

/-- The outcomes of loadDepositInfo (lines 195-225).  emptyFileCrash marks the
place where the Go code does not return at all: with a readable file whose
contents are empty, data has length 0 and the expression data[0] at line 212
raises a runtime index-out-of-range failure (a crash, not a returned error). -/
inductive LoadErr where
  | fileNotFound
  | emptyFileCrash
  | malformedInput
  | emptyInput
deriving DecidableEq

/-- The data-selection stage of loadDepositInfo (lines 199-215): the input
string is classified by strings.HasPrefix - its first character, with no
whitespace skipping.  The filesystem is passed as a lookup from path to
contents (none = os.ReadFile fails).  File contents starting with a brace byte
are wrapped like direct input; anything else is passed through unchanged. -/
def loadData (fs : String → Option String) (input : String) : Except LoadErr String :=
  if goHasPrefix input "\x7b" then .ok ("[" ++ input ++ "]")
  else if goHasPrefix input "[" then .ok input
  else
    match fs input with
    | none => .error .fileNotFound
    | some contents =>
      if contents.data = [] then .error .emptyFileCrash
      else if contents.data.headD ' ' = '\x7b' then .ok ("[" ++ contents ++ "]")
      else .ok contents

/-- loadDepositInfo (lines 195-225): select the JSON data, decode it via
util.DepositInfoFromJSON (external to this file, passed as a parameter), fail
on a decode error, and fail on an empty record list. -/
def loadDepositInfo (fs : String → Option String)
    (decodeJSON : String → Except Unit (List DepositInfo)) (input : String) :
    Except LoadErr (List DepositInfo) :=
  match loadData fs input with
  | .error e => .error e
  | .ok data =>
    match decodeJSON data with
    | .error _ => .error .malformedInput
    | .ok records => if records = [] then .error .emptyInput else .ok records

/-- First non-whitespace character of a string, for the spec-words classifier. -/
def firstNonWhite (s : String) : Option Char :=
  s.data.find? (fun c => !c.isWhitespace)

/-- Modelled from the spec words, for comparison with loadData (claim C4):
"Classify input by its first non-whitespace character: brace - treat as a
single JSON object, wrap into a one-element array; bracket - treat as a JSON
array as-is; otherwise - treat input as a filesystem path, read its full
contents, and re-apply the brace/array classification to the file contents." -/
def loadDataSpec (fs : String → Option String) (input : String) : Except LoadErr String :=
  match firstNonWhite input with
  | some '\x7b' => .ok ("[" ++ input ++ "]")
  | some '[' => .ok input
  | _ =>
    match fs input with
    | none => .error .fileNotFound
    | some contents =>
      match firstNonWhite contents with
      | some '\x7b' => .ok ("[" ++ contents ++ "]")
      | _ => .ok contents

/-- strconv.ParseUint(s, 10, 64): nonempty, decimal digits only, value must fit
in 64 bits (out of range is an error). -/
def parseUint64 (s : String) : Option Nat :=
  if s.data = [] then none
  else if s.data.all Char.isDigit then
    let n := s.data.foldl (fun acc c => acc * 10 + (c.toNat - 48)) 0
    if n < 18446744073709551616 then some n else none
  else none

/-- Reduction of an Int into the int64 value range, as Go two-complement
arithmetic wraps. -/
def wrapInt64 (z : Int) : Int :=
  (z + 9223372036854775808) % 18446744073709551616 - 9223372036854775808

/-- The Go conversion int64(u) of a uint64 value: reinterpret the bits. -/
def toInt64 (n : Nat) : Int :=
  wrapInt64 (n : Int)

/-- int64 addition with wraparound. -/
def addInt64 (a b : Int) : Int :=
  wrapInt64 (a + b)

/-- The totalDeposited accumulation of graphCheck (lines 381-388): each deposit
amount is parsed as uint64, converted to int64 and added with int64 overflow
semantics. -/
def goTotal (vals : List Nat) : Int :=
  vals.foldl (fun acc v => addInt64 acc (toInt64 v)) 0

/-- One prior deposit as decoded from the subgraph response (the amount is a
decimal string in the JSON). -/
structure GraphDeposit where
  amount : String
deriving DecidableEq

/-- The data member of the subgraph response. -/
structure GraphData where
  deposits : List GraphDeposit
deriving DecidableEq

/-- The decoded subgraph response: optional data and an optional errors array
(each error carries a message). -/
structure GraphResponse where
  data : Option GraphData
  errors : Option (List String)
deriving DecidableEq

/-- What came back from the HTTP POST to the subgraph, up to and including
json.Unmarshal: a transport failure (http.Post error), a body-read failure
(io.ReadAll error), an unparseable body, or a decoded response. -/
inductive IndexerReply where
  | netFailure
  | readFailure
  | badJSON
  | ok (response : GraphResponse)

/-- The failure modes of graphCheck.  errorsIndexCrash marks the place where
the Go code crashes rather than returns: an errors array that is present but
empty still enters the branch at line 377 and indexing Errors[0] there raises
an index-out-of-range runtime failure. -/
inductive GraphCheckErr where
  | indexerUnavailable
  | invalidResponse
  | errorsIndexCrash
  | invalidDepositAmount
  | validatorAlreadyFunded
  | wouldExceedEffectiveLimit
deriving DecidableEq

/-- The amount-parsing loop of graphCheck (lines 382-388): amounts are parsed
in order and the first parse failure aborts. -/
def parseAmounts : List GraphDeposit → Except GraphCheckErr (List Nat)
  | [] => .ok []
  | d :: rest =>
    match parseUint64 d.amount with
    | none => .error .invalidDepositAmount
    | some v =>
      match parseAmounts rest with
      | .error e => .error e
      | .ok vs => .ok (v :: vs)

/-- graphCheck (lines 341-403), from the point where the HTTP exchange has
resolved.  The branch for a non-nil errors array is embedded as the source
actually behaves, not as it reads: the value it returns is
errors.Wrap(err, ...) where err is the outer error variable - nil at that
point, because the json.Unmarshal error at line 373 was a new variable scoped
to its if statement - and github.com/pkg/errors.Wrap returns nil when its
error argument is nil.  The indexer-error branch therefore returns nil: the
check passes silently.  amount is the uint64 the caller passes
(opts.Value.Uint64()). -/
def graphCheck (reply : IndexerReply) (allowDup allowExcessive : Bool) (amount : Nat) :
    Except GraphCheckErr Unit :=
  match reply with
  | .netFailure => .error .indexerUnavailable
  | .readFailure => .error .indexerUnavailable
  | .badJSON => .error .invalidResponse
  | .ok r =>
    match r.errors with
    | some [] => .error .errorsIndexCrash
    | some (_ :: _) => .ok ()
    | none =>
      match r.data with
      | none => .ok ()
      | some gd =>
        if gd.deposits = [] then .ok ()
        else
          match parseAmounts gd.deposits with
          | .error e => .error e
          | .ok vals =>
            let total := goTotal vals
            if total ≥ 32000000000 ∧ allowDup = false then .error .validatorAlreadyFunded
            else if addInt64 total (toInt64 amount) > 32000000000 ∧ allowDup = false ∧ allowExcessive = false then
              .error .wouldExceedEffectiveLimit
            else .ok ()

/-- The failure modes of the per-record send step. -/
inductive SendErr where
  | missingValue
  | duplicateDeposit (e : GraphCheckErr)
deriving DecidableEq

/-- The value derivation of sendOffline (lines 237-248).  The --value flag is
modelled as the wei amount it parses to: none when viper.GetString("value") is
empty, some x when the flag is set and go-string2eth parses it to x wei (the
parse itself is an external collaborator; an unparseable flag string is outside
this model).  The source checks the flag string for emptiness before parsing. -/
def txValueOffline (forceZero : Bool) (amount : Nat) (valueFlag : Option Nat) :
    Except SendErr Nat :=
  if forceZero then .ok 0
  else if amount = 0 then
    match valueFlag with
    | none => .error .missingValue
    | some x => .ok x
  else .ok (amount * 1000000000)

/-- Modelled from the spec: generateTxOpts (an external collaborator of this
file) populates opts.Value with the externally supplied fallback value - the
parsed --value flag - or zero when none was supplied. -/
def optsValue (valueFlag : Option Nat) : Nat :=
  valueFlag.getD 0

/-- The value derivation of sendOnline (lines 286-297).  Unlike sendOffline,
the guard at line 291 tests the already-parsed opts.Value against zero, not the
flag string against emptiness; when the guard passes, the flag is parsed again
into opts.Value. -/
def txValueOnline (forceZero : Bool) (amount : Nat) (valueFlag : Option Nat) :
    Except SendErr Nat :=
  if forceZero then .ok 0
  else if amount = 0 then
    if optsValue valueFlag = 0 then .error .missingValue
    else
      match valueFlag with
      | none => .error .missingValue
      | some x => .ok x
  else .ok (amount * 1000000000)

/-- The deposit transaction as far as this command determines it: target
address, wei value, gas limit, and the four deposit-call arguments. -/
structure BuiltTx where
  toAddress : List Nat
  value : Nat
  gasLimit : Nat
  pubkey : List Nat
  withdrawalCredentials : List Nat
  signature : List Nat
  depositDataRoot : List Nat
deriving DecidableEq

/-- The [32]byte copy of the deposit data root (lines 233-234): copy fills the
zero array with at most 32 leading bytes of the source slice. -/
def root32 (root : List Nat) : List Nat :=
  root.take 32 ++ List.replicate (32 - root.length) 0

/-- Gas limit selection (lines 249-258 and 299-307): the --override-gas flag if
nonzero, else the fixed 160000 bound. -/
def gasFor (overrideGas : Nat) : Nat :=
  if overrideGas ≠ 0 then overrideGas else 160000

/-- Assemble the transaction for one record. -/
def mkTx (contract : BeaconContract) (d : DepositInfo) (value gas : Nat) : BuiltTx :=
  { toAddress := contract.address, value := value, gasLimit := gas,
    pubkey := d.publicKey, withdrawalCredentials := d.withdrawalCredentials,
    signature := d.signature, depositDataRoot := root32 d.depositDataRoot }

/-- The per-record loop of sendOffline (lines 232-272): each record is encoded
and its signed transaction printed in turn; a cli failure mid-loop stops the
loop, keeping the outputs already printed.  Returns the printed transactions
and the index and reason of the abort, if any.  Signing and RLP encoding are
external collaborators and value-preserving here. -/
def sendOfflineGo (contract : BeaconContract) (ctx : Overrides) (valueFlag : Option Nat)
    (overrideGas : Nat) : List DepositInfo → Nat → List BuiltTx × Option (Nat × SendErr)
  | [], _ => ([], none)
  | d :: rest, i =>
    match txValueOffline ctx.forceZeroValue d.amount valueFlag with
    | .error e => ([], some (i, e))
    | .ok v =>
      let res := sendOfflineGo contract ctx valueFlag overrideGas rest (i + 1)
      (mkTx contract d v (gasFor overrideGas) :: res.1, res.2)

/-- The per-record loop of sendOnline (lines 283-337): value and gas are
derived first, then, when the descriptor names a subgraph, graphCheck gates the
submission; graphCheck receives opts.Value.Uint64(), the wei value truncated to
64 bits.  Nonce, fee and submission plumbing are external collaborators and
non-failing here.  The subgraph replies are supplied per record index. -/
def sendOnlineGo (contract : BeaconContract) (ctx : Overrides) (valueFlag : Option Nat)
    (overrideGas : Nat) (replies : Nat → IndexerReply) :
    List DepositInfo → Nat → List BuiltTx × Option (Nat × SendErr)
  | [], _ => ([], none)
  | d :: rest, i =>
    match txValueOnline ctx.forceZeroValue d.amount valueFlag with
    | .error e => ([], some (i, e))
    | .ok v =>
      let check : Except GraphCheckErr Unit :=
        if contract.subgraph = "" then .ok ()
        else graphCheck (replies i) ctx.allowDuplicateDeposit ctx.allowExcessiveDeposit
          (v % 18446744073709551616)
      match check with
      | .error e => ([], some (i, .duplicateDeposit e))
      | .ok _ =>
        let res := sendOnlineGo contract ctx valueFlag overrideGas replies rest (i + 1)
        (mkTx contract d v (gasFor overrideGas) :: res.1, res.2)

/-- Which of the two submission paths the command takes (the offline flag). -/
inductive RunMode where
  | offline
  | online (replies : Nat → IndexerReply)

/-- The outcome of one invocation of beaconDepositCmd.Run: either an abort
before any transaction is produced (with the stage that aborted), or the send
loop ran, yielding the transactions produced in input order plus the index and
reason of a mid-loop abort, if any. -/
inductive PipeOutcome where
  | abortedNoData
  | abortedLoad (e : LoadErr)
  | abortedNoTarget
  | abortedResolve (e : FetchErr)
  | abortedWrongChain
  | abortedValidation (index : Nat) (e : ValidationErr)
  | abortedNoFrom
  | abortedEmptyBatch
  | sent (txs : List BuiltTx) (failed : Option (Nat × SendErr))
deriving DecidableEq

/-- Dispatch to sendOffline or sendOnline (lines 168-172).  sendOnline asserts
a nonempty batch before its loop (line 281). -/
def sendPhase (mode : RunMode) (contract : BeaconContract) (ctx : Overrides)
    (valueFlag : Option Nat) (overrideGas : Nat) (records : List DepositInfo) : PipeOutcome :=
  match mode with
  | .offline =>
    let res := sendOfflineGo contract ctx valueFlag overrideGas records 0
    .sent res.1 res.2
  | .online replies =>
    if records = [] then .abortedEmptyBatch
    else
      let res := sendOnlineGo contract ctx valueFlag overrideGas replies records 0
      .sent res.1 res.2

/-- beaconDepositCmd.Run (lines 127-174) end to end: require --data, load the
records, require a target, resolve the contract, assert the connected chain
identity equals the descriptor chain identity, validate every record, require
--from, then and only then run the send loop.  The --from address resolution
itself is an external collaborator (ENS or hex parsing) and non-failing here;
only its required-flag assert is modelled. -/
def runPipeline (fs : String → Option String)
    (decodeJSON : String → Except Unit (List DepositInfo))
    (dataInput contractAddress eth2Network : String) (chainID : Int) (ctx : Overrides)
    (valueFlag : Option Nat) (overrideGas : Nat) (fromSupplied : Bool) (mode : RunMode) :
    PipeOutcome :=
  if dataInput = "" then .abortedNoData
  else
    match loadDepositInfo fs decodeJSON dataInput with
    | .error e => .abortedLoad e
    | .ok records =>
      if contractAddress = "" ∧ eth2Network = "" then .abortedNoTarget
      else
        match fetchBeaconDepositContract beaconDepositKnownContracts chainID
            ctx.allowUnknownContract contractAddress eth2Network with
        | .error e => .abortedResolve e
        | .ok contract =>
          if contract.chainID = chainID then
            match validateAll contract ctx records 0 with
            | .error ie => .abortedValidation ie.1 ie.2
            | .ok _ =>
              if fromSupplied then sendPhase mode contract ctx valueFlag overrideGas records
              else .abortedNoFrom
          else .abortedWrongChain

/-- Did the run get past the chain-identity gate at line 140?  True exactly for
the outcomes produced after that assert. -/
def reachedChainGate : PipeOutcome → Bool
  | .abortedValidation _ _ => true
  | .abortedNoFrom => true
  | .abortedEmptyBatch => true
  | .sent _ _ => true
  | _ => false

/-- A deposit record that passes every check against the Mainnet descriptor. -/
def goodRec : DepositInfo :=
  { account := "interop/00001", publicKey := [1, 2], withdrawalCredentials := [3],
    signature := [4], depositDataRoot := List.replicate 32 0, amount := 32000000000,
    version := 3, forkVersion := [0x00, 0x00, 0x00, 0x00] }

/-- goodRec with an empty public key: fails the first per-record check. -/
def badPubkeyRec : DepositInfo :=
  { goodRec with publicKey := [] }

/-- A decode function for concrete runs: the fixed two-record batch for the
input text the loader passes through, an error otherwise. -/
def demoDecodeTwo : String → Except Unit (List DepositInfo) :=
  fun s => if s = "[R]" then .ok [goodRec, badPubkeyRec] else .error ()

/-- A decode function for concrete runs: a single valid record. -/
def demoDecodeOne : String → Except Unit (List DepositInfo) :=
  fun s => if s = "[R]" then .ok [goodRec] else .error ()

/-- A prior-deposit payload: the subgraph reports one deposit of
32_000_000_000 Gwei. -/
def dupPriorData : GraphData :=
  { deposits := [{ amount := "32000000000" }] }

/-- A well-formed subgraph response carrying dupPriorData and no errors. -/
def dupResponse : GraphResponse :=
  { data := some dupPriorData, errors := none }

/-! Helper lemmas. -/

theorem strData_append (s t : String) : (s ++ t).data = s.data ++ t.data := by
  cases s
  cases t
  rfl

theorem goHasPrefix_wrap_not_brace (o : String) :
    goHasPrefix ("[" ++ o ++ "]") "\x7b" = false := by
  show List.isPrefixOf "\x7b".data (("[" ++ o ++ "]").data) = false
  rw [strData_append, strData_append]
  simp [List.isPrefixOf]

theorem goHasPrefix_wrap_bracket (o : String) :
    goHasPrefix ("[" ++ o ++ "]") "[" = true := by
  show List.isPrefixOf "[".data (("[" ++ o ++ "]").data) = true
  rw [strData_append, strData_append]
  simp [List.isPrefixOf]

/-! C1.  The claim says the amount floor exempts amount = 0 (the
"use external value" sentinel).  Line 151 of the source reads
cli.Assert(depositInfo[i].Amount >= 1000000000, ...): the floor is applied to
every record, zero included, so a zero-amount record aborts with the
deposit-too-small failure.  The sentinel handling at lines 241-247 and 290-296,
which supplies the external value exactly when Amount == 0, is unreachable
through validation: the code contradicts its own zero-amount path. -/

/-- C1: on the code, a record with amount = 0 fails the floor check with
AmountTooSmall, contrary to the claimed exemption; a nonzero amount below the
floor fails the same way, and an in-range amount passes all checks. -/
theorem C1_zero_amount_not_exempt :
    validateRecord mainnetContract defaultOverrides { goodRec with amount := 0 }
      = .error .amountTooSmall
    ∧ validateRecord mainnetContract defaultOverrides { goodRec with amount := 999999999 }
      = .error .amountTooSmall
    ∧ validateRecord mainnetContract defaultOverrides goodRec = .ok () := by
  exact ⟨rfl, rfl, rfl⟩

/-! C7.  Schema version against the descriptor bounds: equal to minVersion or
maxVersion passes, strictly below minVersion fails SchemaTooOld unless
--allow-old-data, strictly above maxVersion fails SchemaTooNew unless
--allow-new-data (lines 156-161). -/

/-- C7: for any record whose other checks pass, against any descriptor with
minVersion ≤ maxVersion: a version equal to either bound validates, one below
minVersion fails SchemaTooOld when allow-old-data is unset, and one above
maxVersion fails SchemaTooNew when allow-new-data is unset. -/
theorem C7_schema_version_bounds (contract : BeaconContract) (ctx : Overrides)
    (d : DepositInfo)
    (hpk : d.publicKey ≠ []) (hroot : d.depositDataRoot ≠ []) (hsig : d.signature ≠ [])
    (hwc : d.withdrawalCredentials ≠ [])
    (hfork : ¬(contract.forkVersion ≠ [] ∧ d.forkVersion ≠ [] ∧ d.forkVersion ≠ contract.forkVersion))
    (hlo : 1000000000 ≤ d.amount) (hhi : d.amount ≤ 32000000000)
    (hmm : contract.minVersion ≤ contract.maxVersion) :
    ((d.version = contract.minVersion ∨ d.version = contract.maxVersion) →
        validateRecord contract ctx d = .ok ())
    ∧ (d.version < contract.minVersion → ctx.allowOldData = false →
        validateRecord contract ctx d = .error .schemaTooOld)
    ∧ (contract.maxVersion < d.version → ctx.allowNewData = false →
        validateRecord contract ctx d = .error .schemaTooNew) := by
  have e1 : validateRecord contract ctx d =
      (if ¬(ctx.allowOldData = true ∨ contract.minVersion ≤ d.version) then
        .error .schemaTooOld
       else if ¬(ctx.allowNewData = true ∨ d.version ≤ contract.maxVersion) then
        .error .schemaTooNew
       else .ok ()) := by
    unfold validateRecord
    rw [if_neg hpk, if_neg hroot, if_neg hsig, if_neg hwc, if_neg hfork,
      if_neg (by omega), if_neg (not_not_intro (Or.inl hhi))]
  refine ⟨?_, ?_, ?_⟩
  · intro hv
    have hv1 : contract.minVersion ≤ d.version := by rcases hv with hv | hv <;> omega
    have hv2 : d.version ≤ contract.maxVersion := by rcases hv with hv | hv <;> omega
    rw [e1, if_neg (not_not_intro (Or.inr hv1)), if_neg (not_not_intro (Or.inr hv2))]
  · intro hv hflag
    have hc : ¬(ctx.allowOldData = true ∨ contract.minVersion ≤ d.version) := by
      rintro (h | h)
      · rw [hflag] at h
        exact Bool.false_ne_true h
      · omega
    rw [e1, if_pos hc]
  · intro hv hflag
    have hc1 : ¬¬(ctx.allowOldData = true ∨ contract.minVersion ≤ d.version) :=
      not_not_intro (Or.inr (by omega))
    have hc2 : ¬(ctx.allowNewData = true ∨ d.version ≤ contract.maxVersion) := by
      rintro (h | h)
      · rw [hflag] at h
        exact Bool.false_ne_true h
      · omega
    rw [e1, if_neg hc1, if_pos hc2]

/-- C7 witness: goodRec at version 4 (the Mainnet maxVersion) validates. -/
theorem C7_schema_version_bounds_witness :
    validateRecord mainnetContract defaultOverrides { goodRec with version := 4 } = .ok () :=
  (C7_schema_version_bounds mainnetContract defaultOverrides { goodRec with version := 4 }
    (by decide) (by decide) (by decide) (by decide) (by decide) (by decide) (by decide)
    (by decide)).1 (Or.inr rfl)

/-! C3.  The claim says a non-empty errors array in the indexer response is a
hard failure.  At line 378 the source builds the failure message but returns
errors.Wrap(err, message) where err is the outer error variable: the
json.Unmarshal error at line 373 was a fresh variable scoped to its if
statement, so the outer err is nil there, and pkg/errors.Wrap returns nil for a
nil error.  The branch therefore returns a nil error: the check passes
silently, skipping the accumulation checks as well.  Network and parse
failures do surface as non-nil errors, as the claim says. -/

/-- C3: on the code, a response with a non-empty errors array makes graphCheck
pass (return a nil error) rather than fail; a transport failure and an
unparseable body do yield hard failures. -/
theorem C3_indexer_errors_silently_pass :
    graphCheck (.ok { data := none, errors := some ["store error"] }) false false 0 = .ok ()
    ∧ graphCheck
        (.ok { data := some { deposits := [{ amount := "32000000000" }] },
               errors := some ["store error"] }) false false 1 = .ok ()
    ∧ graphCheck .netFailure false false 0 = .error .indexerUnavailable
    ∧ graphCheck .badJSON false false 0 = .error .invalidResponse := by
  exact ⟨rfl, rfl, rfl, rfl⟩

/-! C10.  The claim says the file branch of the loader returns an error for a
readable empty file.  At line 208 os.ReadFile succeeds on an empty file and
returns a zero-length slice with a nil error; line 212 then evaluates data[0]
with no length guard, which is an index-out-of-range runtime failure: the
process crashes instead of returning an error. -/

/-- C10: on the code, loading a path to a readable empty file reaches the
unguarded first-byte inspection and crashes (embedded as the distinguished
emptyFileCrash outcome) instead of producing an ordinary error result. -/
theorem C10_empty_file_reaches_index :
    loadDepositInfo (fun p => if p = "deposits.json" then some "" else none)
      (fun _ => .ok []) "deposits.json" = .error .emptyFileCrash := by
  exact rfl

/-! C6.  Value derivation across the two modes.  Both modes use zero under
--force-zero-value and amount x 1e9 for a nonzero amount.  For the zero-amount
sentinel the two modes detect a missing fallback differently: sendOffline
(line 242) tests the --value flag string for emptiness, sendOnline (line 291)
tests the parsed opts.Value against zero.  A supplied --value that parses to
zero therefore builds a zero-value transaction offline but aborts with the
missing-value failure online: the derivation is not identical in the two
modes, contrary to the last part of the claim. -/

/-- C6 counterexample: with force-zero-value unset, amount = 0 and a supplied
fallback that parses to zero, the offline derivation yields value 0 (equal to
the fallback, as the claim demands) while the online derivation fails with
MissingValue. -/
theorem C6_zero_fallback_diverges :
    txValueOffline false 0 (some 0) = .ok 0
    ∧ txValueOnline false 0 (some 0) = .error .missingValue := by
  exact ⟨rfl, rfl⟩

/-- C6 amended: value is 0 under force-zero-value, amount x 1e9 for nonzero
amount, the fallback X for the zero-amount sentinel, and MissingValue when the
fallback is absent - in both modes alike - except that a fallback equal to
zero builds value 0 offline but fails online; whenever the supplied fallback
is not zero the two derivations agree exactly. -/
theorem C6_value_derivation (forceZero : Bool) (amount : Nat) (valueFlag : Option Nat) :
    (forceZero = true →
        txValueOffline forceZero amount valueFlag = .ok 0
        ∧ txValueOnline forceZero amount valueFlag = .ok 0)
    ∧ (forceZero = false → amount ≠ 0 →
        txValueOffline forceZero amount valueFlag = .ok (amount * 1000000000)
        ∧ txValueOnline forceZero amount valueFlag = .ok (amount * 1000000000))
    ∧ (forceZero = false → amount = 0 → valueFlag = none →
        txValueOffline forceZero amount valueFlag = .error .missingValue
        ∧ txValueOnline forceZero amount valueFlag = .error .missingValue)
    ∧ (∀ x : Nat, forceZero = false → amount = 0 → valueFlag = some x → x ≠ 0 →
        txValueOffline forceZero amount valueFlag = .ok x
        ∧ txValueOnline forceZero amount valueFlag = .ok x)
    ∧ (valueFlag ≠ some 0 →
        txValueOffline forceZero amount valueFlag = txValueOnline forceZero amount valueFlag) := by
  refine ⟨?_, ?_, ?_, ?_, ?_⟩
  · rintro rfl
    exact ⟨rfl, rfl⟩
  · rintro rfl ha
    constructor
    · unfold txValueOffline
      rw [if_neg (by simp), if_neg ha]
    · unfold txValueOnline
      rw [if_neg (by simp), if_neg ha]
  · rintro rfl rfl rfl
    exact ⟨rfl, rfl⟩
  · rintro x rfl rfl rfl hx
    refine ⟨rfl, ?_⟩
    unfold txValueOnline optsValue
    rw [if_neg (by simp), if_pos rfl, if_neg (by simpa using hx)]
  · intro hvf
    cases hf : forceZero with
    | true => rfl
    | false =>
      by_cases ha : amount = 0
      · subst ha
        cases valueFlag with
        | none => rfl
        | some x =>
          have hx : x ≠ 0 := fun h => hvf (by rw [h])
          simp [txValueOffline, txValueOnline, optsValue, hx]
      · simp [txValueOffline, txValueOnline, ha]

/-- C6 witness: amount = 0 with fallback 5 wei builds value exactly 5 in both
modes. -/
theorem C6_value_derivation_witness :
    txValueOffline false 0 (some 5) = .ok 5 ∧ txValueOnline false 0 (some 5) = .ok 5 :=
  (C6_value_derivation false 0 (some 5)).2.2.2.1 5 rfl rfl rfl (by decide)

/-! C4.  The loader classifies with strings.HasPrefix (lines 200-203): the
FIRST character decides, leading whitespace is not skipped.  An input whose
first non-whitespace character is a brace but whose first character is a space
is routed to the filesystem branch, against the claimed classification.  The
object/one-element-array equivalence does hold for object texts that begin
with the brace itself. -/

/-- C4 counterexample: on input " \x7b\x7d" (a space before a JSON object) the
code takes the filesystem-path branch (failing on the missing file), while the
first-non-whitespace classification of the claim, embedded as loadDataSpec,
wraps it as a one-element array. -/
theorem C4_whitespace_goes_to_path :
    loadData (fun _ => none) " \x7b\x7d" = .error .fileNotFound
    ∧ loadDataSpec (fun _ => none) " \x7b\x7d" = .ok "[ \x7b\x7d]" := by
  exact ⟨rfl, rfl⟩

/-- C4 amended: load classifies by the first character of the input - a
leading brace wraps the input into a one-element array, a leading bracket
passes it through, anything else (leading whitespace included) is a filesystem
path - and for every object text o that begins with the brace itself, load on
o equals load on o wrapped in a one-element array, whatever the filesystem and
the JSON decoding function. -/
theorem C4_object_array_equiv (fs : String → Option String)
    (decodeJSON : String → Except Unit (List DepositInfo)) (o : String)
    (h : goHasPrefix o "\x7b" = true) :
    loadDepositInfo fs decodeJSON o = loadDepositInfo fs decodeJSON ("[" ++ o ++ "]") := by
  have h1 : loadData fs o = .ok ("[" ++ o ++ "]") := by
    unfold loadData
    rw [if_pos h]
  have h2 : loadData fs ("[" ++ o ++ "]") = .ok ("[" ++ o ++ "]") := by
    unfold loadData
    rw [if_neg (by simp [goHasPrefix_wrap_not_brace]), if_pos (goHasPrefix_wrap_bracket o)]
  unfold loadDepositInfo
  rw [h1, h2]

/-- C4 witness: the equivalence applied to the object text of an empty JSON
object. -/
theorem C4_object_array_equiv_witness :
    loadDepositInfo (fun _ => none) demoDecodeOne "\x7b\x7d"
      = loadDepositInfo (fun _ => none) demoDecodeOne ("[" ++ "\x7b\x7d" ++ "]") :=
  C4_object_array_equiv (fun _ => none) demoDecodeOne "\x7b\x7d" (by decide)

/-! C2.  The accumulation logic of graphCheck.  The int64 arithmetic of the
source coincides with the mathematical sum as long as the totals stay inside
the int64 range; the claim is settled under that bound. -/

theorem wrapInt64_eq_of_lt (z : Int) (h0 : 0 ≤ z) (h1 : z < 9223372036854775808) :
    wrapInt64 z = z := by
  unfold wrapInt64
  rw [Int.emod_eq_of_lt (by omega) (by omega)]
  omega

theorem goTotal_from (vals : List Nat) :
    ∀ z : Int, 0 ≤ z → z + (vals.sum : Int) < 9223372036854775808 →
      List.foldl (fun acc v => addInt64 acc (toInt64 v)) z vals = z + (vals.sum : Int) := by
  induction vals with
  | nil =>
    intro z _ _
    simp
  | cons v vs ih =>
    intro z hz h
    have hsc : ((v :: vs).sum : Int) = (v : Int) + (vs.sum : Int) := by
      push_cast [List.sum_cons]
      ring
    rw [hsc] at h ⊢
    have hv : toInt64 v = (v : Int) := by
      unfold toInt64
      exact wrapInt64_eq_of_lt (v : Int) (by omega) (by omega)
    have ha : addInt64 z (v : Int) = z + (v : Int) := by
      unfold addInt64
      exact wrapInt64_eq_of_lt (z + (v : Int)) (by omega) (by omega)
    simp only [List.foldl, hv, ha]
    rw [ih (z + (v : Int)) (by omega) (by omega)]
    ring

theorem goTotal_eq (vals : List Nat) (h : (vals.sum : Int) < 9223372036854775808) :
    goTotal vals = (vals.sum : Int) := by
  have hfold := goTotal_from vals 0 le_rfl (by omega)
  unfold goTotal
  rw [hfold]
  ring

/-- C2: graphCheck passes when the indexer reports no prior deposits (missing
or empty deposits list); with one or more prior deposits whose parsed amounts
are vals (sums inside the int64 range): a total already at 32_000_000_000
without allow-duplicate-deposit fails ValidatorAlreadyFunded; past that, a
total plus incoming amount strictly above 32_000_000_000 with neither
allow-duplicate-deposit nor allow-excessive-amount fails
WouldExceedEffectiveLimit; otherwise it passes. -/
theorem C2_duplicate_accumulation (allowDup allowExcessive : Bool) (amount : Nat)
    (r : GraphResponse) (gd : GraphData) (vals : List Nat)
    (hnoerr : r.errors = none) (hdata : r.data = some gd)
    (hparse : parseAmounts gd.deposits = .ok vals)
    (hbound : (vals.sum : Int) + (amount : Int) < 9223372036854775808) :
    (∀ r0 : GraphResponse, r0.errors = none → r0.data = none →
        graphCheck (.ok r0) allowDup allowExcessive amount = .ok ())
    ∧ (gd.deposits = [] → graphCheck (.ok r) allowDup allowExcessive amount = .ok ())
    ∧ (gd.deposits ≠ [] → 32000000000 ≤ vals.sum → allowDup = false →
        graphCheck (.ok r) allowDup allowExcessive amount = .error .validatorAlreadyFunded)
    ∧ (gd.deposits ≠ [] → ¬(32000000000 ≤ vals.sum ∧ allowDup = false) →
        32000000000 < vals.sum + amount → allowDup = false → allowExcessive = false →
        graphCheck (.ok r) allowDup allowExcessive amount = .error .wouldExceedEffectiveLimit)
    ∧ (gd.deposits ≠ [] → ¬(32000000000 ≤ vals.sum ∧ allowDup = false) →
        ¬(32000000000 < vals.sum + amount ∧ allowDup = false ∧ allowExcessive = false) →
        graphCheck (.ok r) allowDup allowExcessive amount = .ok ()) := by
  have htotal : goTotal vals = (vals.sum : Int) := goTotal_eq vals (by omega)
  have htoamt : toInt64 amount = (amount : Int) := by
    unfold toInt64
    exact wrapInt64_eq_of_lt (amount : Int) (by omega) (by omega)
  have hadd : addInt64 (goTotal vals) (toInt64 amount) = ((vals.sum : Int) + (amount : Int)) := by
    rw [htotal, htoamt]
    unfold addInt64
    exact wrapInt64_eq_of_lt ((vals.sum : Int) + (amount : Int)) (by omega) hbound
  refine ⟨?_, ?_, ?_, ?_, ?_⟩
  · intro r0 h1 h2
    simp [graphCheck, h1, h2]
  · intro hd
    simp [graphCheck, hnoerr, hdata, hd]
  · intro hd hsum hdup
    have hcond : 32000000000 ≤ goTotal vals ∧ allowDup = false := by
      rw [htotal]
      exact ⟨by exact_mod_cast hsum, hdup⟩
    simp only [graphCheck, hnoerr, hdata, if_neg hd, hparse]
    rw [if_pos hcond]
  · intro hd hfirst hcross hdup hexc
    have hcond1 : ¬(32000000000 ≤ goTotal vals ∧ allowDup = false) := by
      rw [htotal]
      intro hc
      exact hfirst ⟨by exact_mod_cast hc.1, hc.2⟩
    have hcond2 : 32000000000 < addInt64 (goTotal vals) (toInt64 amount)
        ∧ allowDup = false ∧ allowExcessive = false := by
      rw [hadd]
      exact ⟨by exact_mod_cast hcross, hdup, hexc⟩
    simp only [graphCheck, hnoerr, hdata, if_neg hd, hparse]
    rw [if_neg hcond1, if_pos hcond2]
  · intro hd hfirst hsecond
    have hcond1 : ¬(32000000000 ≤ goTotal vals ∧ allowDup = false) := by
      rw [htotal]
      intro hc
      exact hfirst ⟨by exact_mod_cast hc.1, hc.2⟩
    have hcond2 : ¬(32000000000 < addInt64 (goTotal vals) (toInt64 amount)
        ∧ allowDup = false ∧ allowExcessive = false) := by
      rw [hadd]
      intro hc
      exact hsecond ⟨by exact_mod_cast hc.1, hc.2.1, hc.2.2⟩
    simp only [graphCheck, hnoerr, hdata, if_neg hd, hparse]
    rw [if_neg hcond1, if_neg hcond2]

/-- C2 witness: a prior deposit of 32_000_000_000 with incoming amount 1 and
no overrides fails with ValidatorAlreadyFunded. -/
theorem C2_duplicate_accumulation_witness :
    graphCheck (.ok dupResponse) false false 1 = .error .validatorAlreadyFunded :=
  (C2_duplicate_accumulation false false 1 dupResponse dupPriorData [32000000000]
    rfl rfl (by decide) (by decide)).2.2.1 (by decide) (by decide) rfl

/-! C5.  Contract resolution.  Support lemmas about the two registry scans and
the reduction of fetchBeaconDepositContract in each input shape. -/

theorem findAddr_mem {registry : List BeaconContract} {address : List Nat} {chainID : Int}
    {D : BeaconContract} (h : findAddr registry address chainID = some D) :
    D ∈ registry ∧ D.address = address ∧ D.chainID = chainID := by
  induction registry with
  | nil => simp [findAddr] at h
  | cons c rest ih =>
    unfold findAddr at h
    split at h
    · next hc =>
      obtain rfl : c = D := Option.some.inj h
      exact ⟨List.mem_cons_self c rest, hc.1, hc.2⟩
    · next hc =>
      obtain ⟨h1, h2, h3⟩ := ih h
      exact ⟨List.mem_cons_of_mem c h1, h2, h3⟩

theorem findAddr_eq_none {registry : List BeaconContract} {address : List Nat} {chainID : Int}
    (h : ∀ D ∈ registry, ¬(D.address = address ∧ D.chainID = chainID)) :
    findAddr registry address chainID = none := by
  induction registry with
  | nil => rfl
  | cons c rest ih =>
    unfold findAddr
    rw [if_neg (h c (List.mem_cons_self c rest))]
    exact ih (fun D hD => h D (List.mem_cons_of_mem c hD))

theorem findNetwork_eq_none {registry : List BeaconContract} {net : String}
    (h : ∀ D ∈ registry, goEqualFold net D.network = false) :
    findNetwork registry net = none := by
  induction registry with
  | nil => rfl
  | cons c rest ih =>
    unfold findNetwork
    rw [if_neg (by simp [h c (List.mem_cons_self c rest)])]
    exact ih (fun D hD => h D (List.mem_cons_of_mem c hD))

theorem findNetwork_some_of_exists {registry : List BeaconContract} {net : String}
    (h : ∃ D ∈ registry, goEqualFold net D.network = true) :
    ∃ E, findNetwork registry net = some E ∧ E ∈ registry ∧ goEqualFold net E.network = true := by
  induction registry with
  | nil =>
    obtain ⟨D, hD, _⟩ := h
    cases hD
  | cons c rest ih =>
    by_cases hc : goEqualFold net c.network = true
    · refine ⟨c, ?_, List.mem_cons_self c rest, hc⟩
      unfold findNetwork
      rw [if_pos hc]
    · obtain ⟨D, hD, hfold⟩ := h
      rcases List.mem_cons.mp hD with rfl | hD2
      · exact absurd hfold hc
      · obtain ⟨E, h1, h2, h3⟩ := ih ⟨D, hD2, hfold⟩
        refine ⟨E, ?_, List.mem_cons_of_mem c h2, h3⟩
        unfold findNetwork
        rw [if_neg hc]
        exact h1

theorem mem_registry_cases {D : BeaconContract} (hD : D ∈ beaconDepositKnownContracts) :
    D = mainnetContract ∨ D = ropstenContract ∨ D = praterContract ∨ D = kilnContract
      ∨ D = sepoliaContract := by
  simpa [beaconDepositKnownContracts] using hD

theorem registry_not_synthetic {D : BeaconContract} (hD : D ∈ beaconDepositKnownContracts)
    (chainID : Int) (a : List Nat) : D ≠ syntheticContract chainID a := by
  intro h
  have hnet := congrArg BeaconContract.network h
  rcases mem_registry_cases hD with rfl | rfl | rfl | rfl | rfl <;>
    simp [mainnetContract, ropstenContract, praterContract, kilnContract, sepoliaContract,
      syntheticContract] at hnet

theorem findAddr_self {D : BeaconContract} (hD : D ∈ beaconDepositKnownContracts) :
    findAddr beaconDepositKnownContracts D.address D.chainID = some D := by
  rcases mem_registry_cases hD with rfl | rfl | rfl | rfl | rfl <;> decide

theorem fetch_addr_reduce (registry : List BeaconContract) (chainID : Int)
    (allowUnknown : Bool) (s net : String) (a : List Nat)
    (hs : s ≠ "") (ha : decodeHexString (strip0x s) = some a) (hne : a ≠ []) :
    fetchBeaconDepositContract registry chainID allowUnknown s net =
      (match findAddr registry a chainID with
       | some contract => .ok contract
       | none =>
         if allowUnknown then .ok (syntheticContract chainID a)
         else .error .unknownContract) := by
  unfold fetchBeaconDepositContract
  rw [if_neg hs, ha]
  dsimp only
  rw [if_pos hne]

theorem fetch_network_reduce (registry : List BeaconContract) (chainID : Int)
    (allowUnknown : Bool) (net : String) (hnet : net ≠ "") :
    fetchBeaconDepositContract registry chainID allowUnknown "" net =
      (match findNetwork registry net with
       | some contract => .ok contract
       | none => .error .unknownNetwork) := by
  unfold fetchBeaconDepositContract
  rw [if_pos rfl]
  dsimp only
  rw [if_neg (by simp), if_pos hnet]

theorem fetch_no_target (registry : List BeaconContract) (chainID : Int)
    (allowUnknown : Bool) :
    fetchBeaconDepositContract registry chainID allowUnknown "" "" = .error .notFound := by
  unfold fetchBeaconDepositContract
  rw [if_pos rfl]
  dsimp only
  rw [if_neg (by simp), if_neg (by simp)]

/-- C5: resolution behaves as claimed.  With a supplied address (one that
decodes to a nonempty byte sequence): a registry descriptor D is returned
exactly when D has that address byte-for-byte and the current chain identity;
with no match, allow-unknown-contract false fails UnknownContract and true
returns the synthetic descriptor (network "user-supplied network", the given
address, the current chain identity, minVersion 0, maxVersion 999).  With no
address and a nonempty network name: a case-insensitive match is returned when
one exists and UnknownNetwork otherwise, and "MAINNET" resolves the same as
"mainnet".  With neither, the not-found failure. -/
theorem C5_resolve (chainID : Int) (allowUnknown : Bool) (s net : String) :
    (∀ a : List Nat, s ≠ "" → decodeHexString (strip0x s) = some a → a ≠ [] →
      ((∀ D ∈ beaconDepositKnownContracts,
          (fetchBeaconDepositContract beaconDepositKnownContracts chainID allowUnknown s net
              = .ok D
            ↔ (D.address = a ∧ D.chainID = chainID)))
       ∧ ((∀ D ∈ beaconDepositKnownContracts, ¬(D.address = a ∧ D.chainID = chainID)) →
          (allowUnknown = false →
            fetchBeaconDepositContract beaconDepositKnownContracts chainID allowUnknown s net
              = .error .unknownContract)
          ∧ (allowUnknown = true →
            fetchBeaconDepositContract beaconDepositKnownContracts chainID allowUnknown s net
              = .ok (syntheticContract chainID a)))))
    ∧ (net ≠ "" →
        ((∃ D ∈ beaconDepositKnownContracts, goEqualFold net D.network = true) →
          ∃ D, D ∈ beaconDepositKnownContracts ∧ goEqualFold net D.network = true ∧
            fetchBeaconDepositContract beaconDepositKnownContracts chainID allowUnknown "" net
              = .ok D)
        ∧ ((∀ D ∈ beaconDepositKnownContracts, goEqualFold net D.network = false) →
          fetchBeaconDepositContract beaconDepositKnownContracts chainID allowUnknown "" net
            = .error .unknownNetwork))
    ∧ fetchBeaconDepositContract beaconDepositKnownContracts chainID allowUnknown "" ""
        = .error .notFound
    ∧ fetchBeaconDepositContract beaconDepositKnownContracts chainID allowUnknown "" "MAINNET"
        = fetchBeaconDepositContract beaconDepositKnownContracts chainID allowUnknown "" "mainnet" := by
  refine ⟨?_, ?_, ?_, ?_⟩
  · intro a hs ha hne
    have hred := fetch_addr_reduce beaconDepositKnownContracts chainID allowUnknown s net a
      hs ha hne
    constructor
    · intro D hD
      constructor
      · intro hok
        rw [hred] at hok
        cases hfa : findAddr beaconDepositKnownContracts a chainID with
        | some E =>
          rw [hfa] at hok
          obtain rfl : E = D := Except.ok.inj hok
          obtain ⟨_, h2, h3⟩ := findAddr_mem hfa
          exact ⟨h2, h3⟩
        | none =>
          rw [hfa] at hok
          dsimp only at hok
          by_cases hau : allowUnknown = true
          · rw [if_pos hau] at hok
            exact absurd (Except.ok.inj hok).symm (registry_not_synthetic hD chainID a)
          · rw [if_neg hau] at hok
            cases hok
      · rintro ⟨haddr, hchain⟩
        subst haddr
        subst hchain
        rw [hred, findAddr_self hD]
    · intro hnone
      have hfa : findAddr beaconDepositKnownContracts a chainID = none :=
        findAddr_eq_none hnone
      constructor
      · intro hau
        rw [hred, hfa]
        dsimp only
        rw [if_neg (by simp [hau])]
      · intro hau
        rw [hred, hfa]
        dsimp only
        rw [if_pos hau]
  · intro hnet
    constructor
    · intro hex
      obtain ⟨E, hfind, hmem, hfold⟩ := findNetwork_some_of_exists hex
      refine ⟨E, hmem, hfold, ?_⟩
      rw [fetch_network_reduce beaconDepositKnownContracts chainID allowUnknown net hnet, hfind]
    · intro hall
      rw [fetch_network_reduce beaconDepositKnownContracts chainID allowUnknown net hnet,
        findNetwork_eq_none hall]
  · exact fetch_no_target beaconDepositKnownContracts chainID allowUnknown
  · have hm1 : findNetwork beaconDepositKnownContracts "MAINNET" = some mainnetContract := by
      decide
    have hm2 : findNetwork beaconDepositKnownContracts "mainnet" = some mainnetContract := by
      decide
    rw [fetch_network_reduce beaconDepositKnownContracts chainID allowUnknown "MAINNET"
        (by decide),
      fetch_network_reduce beaconDepositKnownContracts chainID allowUnknown "mainnet"
        (by decide),
      hm1, hm2]

/-- C5 witness: the Mainnet address on chain identity 1 resolves to the Mainnet
registry descriptor. -/
theorem C5_resolve_witness :
    fetchBeaconDepositContract beaconDepositKnownContracts 1 false
      "0x00000000219ab540356cBB839Cbe05303d7705Fa" "" = .ok mainnetContract := by
  have h := (C5_resolve 1 false "0x00000000219ab540356cBB839Cbe05303d7705Fa" "").1
    mainnetContract.address (by decide) (by decide) (by decide)
  exact (h.1 mainnetContract (by decide)).mpr ⟨rfl, rfl⟩

/-! C8.  Validation is an all-or-nothing pre-flight over the batch: the loop
at lines 143-162 runs to completion before sendOffline or sendOnline is
entered, and the first failing record aborts the process with that record's
index. -/

theorem validateAll_error_at (contract : BeaconContract) (ctx : Overrides) :
    ∀ (l : List DepositInfo) (k i : Nat) (hi : i < l.length) (e : ValidationErr),
      validateRecord contract ctx (l.get ⟨i, hi⟩) = .error e →
      (∀ j (hj : j < i), validateRecord contract ctx (l.get ⟨j, Nat.lt_trans hj hi⟩) = .ok ()) →
      validateAll contract ctx l k = .error (k + i, e) := by
  intro l
  induction l with
  | nil =>
    intro k i hi
    exact absurd hi (Nat.not_lt_zero i)
  | cons d rest ih =>
    intro k i hi e hfail hbefore
    match i with
    | 0 =>
      unfold validateAll
      have hfail0 : validateRecord contract ctx d = .error e := hfail
      rw [hfail0]
      rfl
    | j + 1 =>
      have h0 : validateRecord contract ctx d = .ok () := hbefore 0 (Nat.succ_pos j)
      unfold validateAll
      rw [h0]
      have hrec := ih (k + 1) j (Nat.lt_of_succ_lt_succ hi) e hfail
        (fun j2 hj2 => hbefore (j2 + 1) (Nat.succ_lt_succ hj2))
      rw [hrec]
      have : k + 1 + j = k + (j + 1) := by omega
      rw [this]

/-- C8: whenever the loaded batch contains a record failing a check - the
first such failure being record i with reason e - the run aborts at the
validation stage reporting index i, and no transaction is produced for any
record of the batch, earlier records included: the outcome is never a sent
outcome. -/
theorem C8_batch_preflight (fs : String → Option String)
    (decodeJSON : String → Except Unit (List DepositInfo))
    (dataInput contractAddress eth2Network : String) (chainID : Int) (ctx : Overrides)
    (valueFlag : Option Nat) (overrideGas : Nat) (fromSupplied : Bool) (mode : RunMode)
    (records : List DepositInfo) (contract : BeaconContract) (i : Nat) (e : ValidationErr)
    (hdata : dataInput ≠ "")
    (hload : loadDepositInfo fs decodeJSON dataInput = .ok records)
    (htarget : ¬(contractAddress = "" ∧ eth2Network = ""))
    (hfetch : fetchBeaconDepositContract beaconDepositKnownContracts chainID
      ctx.allowUnknownContract contractAddress eth2Network = .ok contract)
    (hchain : contract.chainID = chainID)
    (hi : i < records.length)
    (hfail : validateRecord contract ctx (records.get ⟨i, hi⟩) = .error e)
    (hbefore : ∀ j (hj : j < i),
      validateRecord contract ctx (records.get ⟨j, Nat.lt_trans hj hi⟩) = .ok ()) :
    runPipeline fs decodeJSON dataInput contractAddress eth2Network chainID ctx valueFlag
        overrideGas fromSupplied mode = .abortedValidation i e
    ∧ ∀ (txs : List BuiltTx) (ab : Option (Nat × SendErr)),
        runPipeline fs decodeJSON dataInput contractAddress eth2Network chainID ctx valueFlag
          overrideGas fromSupplied mode ≠ .sent txs ab := by
  have hva : validateAll contract ctx records 0 = .error (i, e) := by
    have h := validateAll_error_at contract ctx records 0 i hi e hfail hbefore
    rw [h, Nat.zero_add]
  have hrun : runPipeline fs decodeJSON dataInput contractAddress eth2Network chainID ctx
      valueFlag overrideGas fromSupplied mode = .abortedValidation i e := by
    unfold runPipeline
    rw [if_neg hdata, hload]
    dsimp only
    rw [if_neg htarget, hfetch]
    dsimp only
    rw [if_pos hchain, hva]
  refine ⟨hrun, fun txs ab h => ?_⟩
  rw [hrun] at h
  cases h

/-- C8 witness: a two-record batch whose second record has an empty public key
aborts with index 1 and MissingField, building nothing. -/
theorem C8_batch_preflight_witness :
    runPipeline (fun _ => none) demoDecodeTwo "[R]" "" "mainnet" 1 defaultOverrides none 0
      true .offline = .abortedValidation 1 .missingPublicKey :=
  (C8_batch_preflight (fun _ => none) demoDecodeTwo "[R]" "" "mainnet" 1 defaultOverrides
    none 0 true .offline [goodRec, badPubkeyRec] mainnetContract 1 .missingPublicKey
    (by decide) (by decide) (by simp) (by decide) (by decide) (by decide) (by decide)
    (by
      intro j hj
      have hj0 : j = 0 := by omega
      subst hj0
      exact (by decide : validateRecord mainnetContract defaultOverrides goodRec
        = Except.ok ()))).1

/-! C9.  The chain-identity gate.  Line 140 asserts that the connected chain
identity equals the resolved descriptor chain identity before the validation
loop and before any transaction work, for descriptors found by address, found
by network name, and synthesized alike. -/

/-- C9: whenever a run gets past the chain gate - it reaches validation, the
from-check, or the send loop - the resolved descriptor carries exactly the
connected chain identity, so no record is ever validated or built against a
descriptor for a different chain. -/
theorem C9_chain_gate (fs : String → Option String)
    (decodeJSON : String → Except Unit (List DepositInfo))
    (dataInput contractAddress eth2Network : String) (chainID : Int) (ctx : Overrides)
    (valueFlag : Option Nat) (overrideGas : Nat) (fromSupplied : Bool) (mode : RunMode)
    (contract : BeaconContract)
    (hfetch : fetchBeaconDepositContract beaconDepositKnownContracts chainID
      ctx.allowUnknownContract contractAddress eth2Network = .ok contract)
    (hreach : reachedChainGate (runPipeline fs decodeJSON dataInput contractAddress
      eth2Network chainID ctx valueFlag overrideGas fromSupplied mode) = true) :
    contract.chainID = chainID := by
  unfold runPipeline at hreach
  by_cases h1 : dataInput = ""
  · rw [if_pos h1] at hreach
    simp [reachedChainGate] at hreach
  rw [if_neg h1] at hreach
  cases hld : loadDepositInfo fs decodeJSON dataInput with
  | error eld =>
    rw [hld] at hreach
    simp [reachedChainGate] at hreach
  | ok records =>
    rw [hld] at hreach
    dsimp only at hreach
    by_cases h2 : contractAddress = "" ∧ eth2Network = ""
    · rw [if_pos h2] at hreach
      simp [reachedChainGate] at hreach
    rw [if_neg h2, hfetch] at hreach
    dsimp only at hreach
    by_cases h3 : contract.chainID = chainID
    · exact h3
    · rw [if_neg h3] at hreach
      simp [reachedChainGate] at hreach

/-- C9 witness: a run over a valid batch that reaches the send loop, resolved
by network name, forces the Mainnet descriptor chain identity to be the
connected chain identity 1. -/
theorem C9_chain_gate_witness : mainnetContract.chainID = 1 :=
  C9_chain_gate (fun _ => none) demoDecodeOne "[R]" "" "mainnet" 1 defaultOverrides none 0
    true .offline mainnetContract (by decide) (by decide)

end Ethereal
